import Mathlib

/-
Verification development for the finance-tracker analytics engines.

Scope of the embedding (translated from the Python sources):
  backend/app/ml/forecasting.py   (SpendingForecastService)
  backend/app/ml/health_score.py  (FinancialHealthService)
  backend/app/ml/insights.py      (SpendingInsightsService)
  finance_tracker/transactions/utils.py (categorize)

Modelling conventions, fixed once for the whole file:
  * Python float / Decimal arithmetic is modelled by exact rational
    arithmetic over ℚ.  All numeric literals appearing in the sources
    (0.1, 0.25, 20, 100, ...) are exactly representable, and every
    comparison appearing in a claim is far from the rounding error of
    binary floats, so the ℚ model agrees with the float execution on
    everything stated below.
  * numpy's std (population standard deviation) takes a square root,
    which has no exact rational value; it is modelled as a real number
    (Real.sqrt of the rational variance).  The same holds for numpy's
    log2 used by the category-diversity entropy.  Definitions touching
    these are noncomputable; every claim below only ever evaluates the
    rational parts of the results.
  * Python dicts preserve insertion order; they are modelled as
    association lists with an upsert operation that updates in place and
    appends new keys at the end, exactly like dict iteration order.
  * Python's sorted()/list.sort() is a stable sort; it is modelled with
    List.insertionSort, which is also stable, so outputs coincide.
  * datetime.date values are (year, month, day) triples with
    lexicographic order.  datetime.utcnow() / date.today() are ambient
    wall-clock effects; where a result merely stores a derived date
    (forecast_date = today + days_ahead) the model stores the offset.
  * Transactions are the rows handed back by the repository query; the
    engines are modelled as functions of that list.  The repository
    fetch itself is modelled by an Except value in the *_service
    wrappers, mirroring the top-level try/except of each engine.
-/

/-! ## Generic helpers: insertion-ordered dictionaries -/

/-- Model of the Python pattern `if k not in d: d[k] = dflt; d[k] = f(d[k])`
on an insertion-ordered dict: update in place if the key is present,
otherwise append the new key at the end (CPython dicts iterate in
insertion order). -/
def dict_upd {κ α : Type} [DecidableEq κ] (d : List (κ × α)) (k : κ) (dflt : α) (f : α → α) :
    List (κ × α) :=
  match d with
  | [] => [(k, f dflt)]
  | (k0, v) :: rest => if k0 = k then (k0, f v) :: rest else (k0, v) :: dict_upd rest k dflt f

/-- Dictionary lookup (first matching key). -/
def dict_get {κ α : Type} [DecidableEq κ] (d : List (κ × α)) (k : κ) : Option α :=
  match d with
  | [] => none
  | (k0, v) :: rest => if k0 = k then some v else dict_get rest k

/-- Python max(items, key=value): first pair with maximal value wins ties. -/
def arg_max_by_val (l : List (String × ℚ)) : String × ℚ :=
  l.foldl (fun best p => if p.2 > best.2 then p else best) (l.headD ("", 0))

/-- Python min(items, key=value): first pair with minimal value wins ties. -/
def arg_min_by_val (l : List (String × ℚ)) : String × ℚ :=
  l.foldl (fun best p => if p.2 < best.2 then p else best) (l.headD ("", 0))

/-! ## Strings: Python lower/title/substring -/

/-- Python str.lower() (the strings in this code base are ASCII). -/
def py_lower (s : String) : String := (s.data.map Char.toLower).asString

/-- Auxiliary for substring search over character lists. -/
def contains_sub (hay needle : List Char) : Bool :=
  match hay with
  | [] => needle.isEmpty
  | _ :: rest => needle.isPrefixOf hay || contains_sub rest needle

/-- Python `needle in hay` on strings (substring containment). -/
def py_in (needle hay : String) : Bool := contains_sub hay.data needle.data

/-- Python str.title(): the first character of each alphabetic run is
uppercased, the rest lowercased. -/
def py_title (s : String) : String :=
  (s.data.foldl
    (fun (acc : List Char × Bool) c =>
      let is_alpha := c.isAlpha
      let c2 := if is_alpha && !acc.2 then c.toUpper else if is_alpha then c.toLower else c
      (acc.1 ++ [c2], is_alpha))
    ([], false)).1.asString

/-! ## Dates -/

/-- datetime.date: a calendar date.  Only the fields the engines read are
modelled. -/
structure PyDate where
  year : ℕ
  month : ℕ
  day : ℕ
deriving DecidableEq

/-- txn.date.replace(day=1): the monthly bucket key. -/
def month_start (d : PyDate) : PyDate := { year := d.year, month := d.month, day := 1 }

/-- Lexicographic comparison of dates, as Python date ordering. -/
def date_ble (a b : PyDate) : Bool :=
  if a.year ≠ b.year then decide (a.year < b.year)
  else if a.month ≠ b.month then decide (a.month < b.month)
  else decide (a.day ≤ b.day)

/-- strftime('%B'): the full month name. -/
def month_name (m : ℕ) : String :=
  ["January", "February", "March", "April", "May", "June", "July", "August",
   "September", "October", "November", "December"].getD (m - 1) "January"

/-- strftime('%A') via Zeller's congruence for the Gregorian calendar. -/
def weekday_name (d : PyDate) : String :=
  let a := if d.month ≤ 2 then 1 else 0
  let y := d.year - a
  let m := d.month + 12 * a
  let k := y % 100
  let j := y / 100
  let h := (d.day + (13 * (m + 1)) / 5 + k + k / 4 + j / 4 + 5 * j) % 7
  ["Saturday", "Sunday", "Monday", "Tuesday", "Wednesday", "Thursday", "Friday"].getD h "Saturday"

/-! ## Transactions -/

/-- app/models/transaction.py, restricted to the columns the analytics
engines read.  `category` is the Plaid category hierarchy (an array),
`custom_category` the user override, `transaction_type` is the string
"debit" or "credit". -/
structure Transaction where
  amount : ℚ
  name : String
  merchant_name : Option String := none
  date : PyDate
  category : List String := []
  custom_category : Option String := none
  transaction_type : String
deriving DecidableEq

/-- The category-resolution expression inlined everywhere in the ML code:
`txn.custom_category or (txn.category[0] if txn.category else "Other")`.
Python `or` falls through on the empty string (falsy), which the match
reproduces. -/
def resolved_category (t : Transaction) : String :=
  let plaid_category :=
    match t.category with
    | [] => "Other"
    | c :: _ => c
  match t.custom_category with
  | none => plaid_category
  | some c => if c = "" then plaid_category else c

/-! ## finance_tracker/transactions/utils.py : categorize -/

/-- Rule-based transaction categorization (transactions/utils.py).
Case-insensitive substring match, first rule wins. -/
def categorize (description : String) : String :=
  let desc := py_lower description
  if py_in "coffee" desc || py_in "starbucks" desc then "Food & Drink"
  else if py_in "uber" desc || py_in "lyft" desc then "Transport"
  else if py_in "amazon" desc then "Shopping"
  else if py_in "grocery" desc || py_in "market" desc then "Groceries"
  else if py_in "rent" desc || py_in "apartment" desc then "Housing"
  else if py_in "salary" desc || py_in "paycheck" desc then "Income"
  else "Uncategorized"

/-! ## Statistics helpers -/

/-- Python's builtin abs on numbers. -/
def py_abs (q : ℚ) : ℚ := if q < 0 then -q else q

/-- numpy mean.  The engines only call it on non-empty data; Lean's
division by zero makes the empty case 0, which no claim touches. -/
def mean_list (l : List ℚ) : ℚ := l.sum / l.length

/-- Population variance, the square of numpy's std. -/
def var_list (l : List ℚ) : ℚ :=
  ((l.map fun x => (x - mean_list l) ^ 2).sum) / l.length

/-- numpy std (population standard deviation). -/
noncomputable def std_dev (l : List ℚ) : ℝ := Real.sqrt ((var_list l : ℚ) : ℝ)

/-- Degree-1 np.polyfit slope for y over x = 0, 1, ..., n-1: the closed
form of the least-squares line coefficient. -/
def slope_fit (ys : List ℚ) : ℚ :=
  let n : ℚ := ys.length
  let xs : List ℚ := (List.range ys.length).map fun i => (i : ℚ)
  let sum_x := xs.sum
  let sum_y := ys.sum
  let sum_xy := ((xs.zip ys).map fun p => p.1 * p.2).sum
  let sum_xx := (xs.map fun x => x ^ 2).sum
  (n * sum_xy - sum_x * sum_y) / (n * sum_xx - sum_x ^ 2)

/-- Round half to even (Python's round / string formatting tie rule). -/
def round_half_even (q : ℚ) : ℤ :=
  let f := ⌊q⌋
  let r := q - f
  if r < 1 / 2 then f
  else if 1 / 2 < r then f + 1
  else if f % 2 = 0 then f else f + 1

/-- Python round(x, 1). -/
def round1 (q : ℚ) : ℚ := ((round_half_even (10 * q) : ℤ) : ℚ) / 10

/-! ## Number formatting (f-string fields like :.2f, :.1f, :.1%) -/

/-- Fixed-point rendering with the given number of decimals.  The float
formatting of CPython is approximated by exact half-even rounding of the
rational value; no claim below depends on a formatted string. -/
def fmt_fixed (decimals : ℕ) (q : ℚ) : String :=
  let scale : ℚ := ((10 ^ decimals : ℕ) : ℚ)
  let units : ℤ := round_half_even (q * scale)
  let sign := if units < 0 then "-" else ""
  let n := units.natAbs
  let whole := n / 10 ^ decimals
  let frac := n % 10 ^ decimals
  let frac_str := toString frac
  let frac_pad := (List.replicate (decimals - frac_str.length) '0').asString ++ frac_str
  sign ++ toString whole ++ "." ++ frac_pad

/-- f"{x:.2f}". -/
def fmt2 (q : ℚ) : String := fmt_fixed 2 q

/-- f"{x:.1f}". -/
def fmt1 (q : ℚ) : String := fmt_fixed 1 q

/-- f"{x:.1%}". -/
def pct1 (q : ℚ) : String := fmt_fixed 1 (q * 100) ++ "%"

/-- strftime('%d'): zero-padded day. -/
def pad2 (n : ℕ) : String := if n < 10 then "0" ++ toString n else toString n

/-! ## Shared monthly bucketing -/

/-- One month's running income/expense totals. -/
structure IncomeExpense where
  income : ℚ
  expenses : ℚ
deriving DecidableEq

/-- The monthly income/expense dict built identically (same loop) by
_calculate_income_expense_ratio, _calculate_savings_rate and
_analyze_spending_trends: bucket by month start; credit-type amounts
accumulate as income, every other type as expenses; amounts enter by
absolute value. -/
def monthly_income_expense (txs : List Transaction) : List (PyDate × IncomeExpense) :=
  txs.foldl
    (fun d t =>
      dict_upd d (month_start t.date) { income := 0, expenses := 0 }
        (fun v =>
          if t.transaction_type == "credit" then { v with income := v.income + py_abs t.amount }
          else { v with expenses := v.expenses + py_abs t.amount }))
    []

/-- Monthly expense totals over debit transactions only (the loop of
_forecast_overall_spending, _calculate_spending_consistency and
_get_monthly_expenses). -/
def monthly_expenses_dict (txs : List Transaction) : List (PyDate × ℚ) :=
  txs.foldl
    (fun d t =>
      if t.transaction_type == "debit" then
        dict_upd d (month_start t.date) 0 (fun v => v + py_abs t.amount)
      else d)
    []

/-- Per-day debit totals (the loop of _detect_spending_anomalies). -/
def daily_spending_dict (txs : List Transaction) : List (PyDate × ℚ) :=
  txs.foldl
    (fun d t =>
      if t.transaction_type == "debit" then
        dict_upd d t.date 0 (fun v => v + py_abs t.amount)
      else d)
    []

/-- Per-category debit spending totals (the loop shared by
_get_transaction_categories, _generate_savings_recommendations and
_calculate_category_diversity's amount variant). -/
def category_spending_dict (txs : List Transaction) : List (String × ℚ) :=
  txs.foldl
    (fun d t =>
      if t.transaction_type == "debit" then
        dict_upd d (resolved_category t) 0 (fun v => v + py_abs t.amount)
      else d)
    []

/-- `sorted(monthly.keys())`. -/
def sorted_months (d : List (PyDate × ℚ)) : List PyDate :=
  List.insertionSort (fun a b => date_ble a b = true) (d.map Prod.fst)

/-- `amounts = [monthly[m] for m in sorted(monthly.keys())]`. -/
def amounts_of (d : List (PyDate × ℚ)) : List ℚ :=
  (sorted_months d).map fun m => (dict_get d m).getD 0

/-! ## ForecastEngine (backend/app/ml/forecasting.py) -/

/-- schemas/transaction.py ForecastData.  forecast_date in the source is
date.today() + timedelta(days=days_ahead); the model stores the offset
because today() is an ambient effect. -/
structure ForecastData where
  category : String
  forecast_amount : ℚ
  confidence_interval_lower : ℝ
  confidence_interval_upper : ℝ
  forecast_date_offset : ℕ
  trend : String

/-- The debit transactions of one resolved category (the filter at the
top of _forecast_category). -/
def category_transactions (txs : List Transaction) (category : String) : List Transaction :=
  txs.filter fun t => t.transaction_type == "debit" && resolved_category t == category

/-- The per-month totals of one category's debit transactions, keyed by
month start (the grouping loop of _forecast_category; the loop has no
debit test because the filter above already selected debits). -/
def category_monthly_dict (txs : List Transaction) (category : String) : List (PyDate × ℚ) :=
  (category_transactions txs category).foldl
    (fun d t => dict_upd d (month_start t.date) 0 (fun v => v + py_abs t.amount)) []

/-- The month-ordered amount list _forecast_category regresses over. -/
def category_monthly_amounts (txs : List Transaction) (category : String) : List ℚ :=
  amounts_of (category_monthly_dict txs category)

/-- amounts[-1] on the non-empty amounts list. -/
def last_amount (ys : List ℚ) : ℚ := (ys.getLast?).getD 0

/-- next_month_amount = amounts[-1] + slope. -/
def next_month_amount (ys : List ℚ) : ℚ := last_amount ys + slope_fit ys

/-- trend classification from the regression slope (threshold 0.1). -/
def trend_of_slope (slope : ℚ) : String :=
  if slope > 0.1 then "increasing"
  else if slope < -0.1 then "decreasing"
  else "stable"

/-- _forecast_category.  Returns none where the source returns None: fewer
than 5 transactions in the category, or fewer than 2 distinct months
(the trailing `if len(y) > 1` is subsumed by the 2-month guard).  The
try/except of the source catches exceptions only; the body raises none,
so no extra error case arises. -/
noncomputable def forecast_category (txs : List Transaction) (category : String)
    (days_ahead : ℕ) : Option ForecastData :=
  let category_txns := category_transactions txs category
  if category_txns.length < 5 then none
  else
    let monthly_data := category_monthly_dict txs category
    if monthly_data.length < 2 then none
    else
      let amounts := amounts_of monthly_data
      if amounts.length > 1 then
        let slope := slope_fit amounts
        let next_month := next_month_amount amounts
        let sd := std_dev amounts
        let confidence_lower := max 0 ((next_month : ℝ) - sd)
        let confidence_upper := (next_month : ℝ) + sd
        let daily_forecast := next_month / 30
        some
          { category := category
            forecast_amount := daily_forecast * days_ahead
            confidence_interval_lower := confidence_lower
            confidence_interval_upper := confidence_upper
            forecast_date_offset := days_ahead
            trend := trend_of_slope slope }
      else none

/-- _forecast_overall_spending: same regression over the debit totals of
all categories together; note there is no minimum transaction count,
only the 2-distinct-months guard. -/
noncomputable def forecast_overall_spending (txs : List Transaction) (days_ahead : ℕ) :
    Option ForecastData :=
  let monthly_expenses := monthly_expenses_dict txs
  if monthly_expenses.length < 2 then none
  else
    let amounts := amounts_of monthly_expenses
    if amounts.length > 1 then
      let slope := slope_fit amounts
      let next_month := next_month_amount amounts
      let sd := std_dev amounts
      let confidence_lower := max 0 ((next_month : ℝ) - sd)
      let confidence_upper := (next_month : ℝ) + sd
      let daily_forecast := next_month / 30
      some
        { category := "Overall Spending"
          forecast_amount := daily_forecast * days_ahead
          confidence_interval_lower := confidence_lower
          confidence_interval_upper := confidence_upper
          forecast_date_offset := days_ahead
          trend := trend_of_slope slope }
    else none

/-- _get_transaction_categories: top 5 resolved categories of debit
spending, by descending total (Python sorted is stable; so is the
insertion sort used here).  The `categories` set the source builds first
is dead code and not modelled. -/
def get_transaction_categories (txs : List Transaction) : List String :=
  let category_totals := category_spending_dict txs
  ((List.insertionSort (fun a b : String × ℚ => b.2 ≤ a.2) category_totals).take 5).map Prod.fst

/-- _get_default_forecast: the cold-start placeholder. -/
def get_default_forecast (days_ahead : ℕ) : List ForecastData :=
  [{ category := "General Expenses"
     forecast_amount := 500
     confidence_interval_lower := 300
     confidence_interval_upper := 700
     forecast_date_offset := days_ahead
     trend := "stable" }]

/-- generate_forecast on the fetched transaction list: default on empty
history, else the per-category forecasts of the top categories (skipping
the Nones) followed by the overall forecast. -/
noncomputable def generate_forecast (txs : List Transaction) (days_ahead : ℕ) :
    List ForecastData :=
  if txs.isEmpty then get_default_forecast days_ahead
  else
    let categories := get_transaction_categories txs
    let forecasts :=
      categories.foldl
        (fun acc category =>
          match forecast_category txs category days_ahead with
          | some f => acc ++ [f]
          | none => acc)
        []
    match forecast_overall_spending txs days_ahead with
    | some f => forecasts ++ [f]
    | none => forecasts

/-! ## HealthScoreEngine (backend/app/ml/health_score.py) -/

/-- The income_expense_ratio metric dict.  The Option extras model keys
the source only adds on the happy path (the default health score's
metric dicts carry only score and status). -/
structure IncomeExpenseMetric where
  score : ℚ
  ratio : Option ℚ := none
  status : String
  monthly_income : Option ℚ := none
  monthly_expenses : Option ℚ := none
deriving DecidableEq

/-- The savings_rate metric dict. -/
structure SavingsRateMetric where
  score : ℚ
  rate : Option ℚ := none
  status : String
  monthly_savings : Option ℚ := none
deriving DecidableEq

/-- The spending_consistency metric dict. -/
structure SpendingConsistencyMetric where
  score : ℚ
  consistency : Option ℝ := none
  status : String
  coefficient_of_variation : Option ℝ := none

/-- The emergency_fund_score metric dict. -/
structure EmergencyFundMetric where
  score : ℚ
  months_covered : Option ℚ := none
  status : String
  recommended_months : Option ℚ := none
deriving DecidableEq

/-- The debt_management metric dict (a fixed placeholder in the source). -/
structure DebtManagementMetric where
  score : ℚ
  status : String
  note : Option String := none
deriving DecidableEq

/-- The category_diversity metric dict. -/
structure CategoryDiversityMetric where
  score : ℚ
  diversity : Option ℝ := none
  status : String
  categories_count : Option ℕ := none

/-- The six metric dicts of the health result. -/
structure HealthMetrics where
  income_expense_ratio : IncomeExpenseMetric
  savings_rate : SavingsRateMetric
  spending_consistency : SpendingConsistencyMetric
  emergency_fund_score : EmergencyFundMetric
  debt_management : DebtManagementMetric
  category_diversity : CategoryDiversityMetric

/-- The dict calculate_health_score returns.  calculated_at (a wall-clock
timestamp) is not modelled. -/
structure HealthScoreResult where
  overall_score : ℚ
  health_grade : String
  metrics : HealthMetrics
  recommendations : List String

/-- The expense/income ratio score ladder (lower ratio scores higher). -/
def ratio_score (ratio : ℚ) : ℚ × String :=
  if ratio ≤ 0.5 then (100, "excellent")
  else if ratio ≤ 0.7 then (80, "good")
  else if ratio ≤ 0.9 then (60, "fair")
  else if ratio ≤ 1.1 then (40, "concerning")
  else (20, "critical")

/-- The savings rate score ladder (higher rate scores higher). -/
def savings_score (rate : ℚ) : ℚ × String :=
  if rate ≥ 0.3 then (100, "excellent")
  else if rate ≥ 0.2 then (85, "very_good")
  else if rate ≥ 0.1 then (70, "good")
  else if rate ≥ 0 then (50, "fair")
  else (20, "negative")

/-- The coefficient-of-variation score ladder (lower CV is better). -/
noncomputable def cv_score (cv : ℝ) : ℚ × String :=
  if cv ≤ 0.2 then (100, "very_consistent")
  else if cv ≤ 0.4 then (80, "consistent")
  else if cv ≤ 0.6 then (60, "moderate")
  else if cv ≤ 0.8 then (40, "inconsistent")
  else (20, "highly_inconsistent")

/-- The months-covered score ladder of the emergency fund heuristic. -/
def emergency_fund_ladder (months : ℚ) : ℚ × String :=
  if months ≥ 6 then (100, "excellent")
  else if months ≥ 4 then (80, "good")
  else if months ≥ 3 then (60, "adequate")
  else if months ≥ 2 then (40, "inadequate")
  else (20, "critical")

/-- The normalized-entropy score ladder of category diversity. -/
noncomputable def diversity_score (normalized_entropy : ℝ) : ℚ × String :=
  if normalized_entropy ≥ 0.8 then (100, "excellent")
  else if normalized_entropy ≥ 0.6 then (80, "good")
  else if normalized_entropy ≥ 0.4 then (60, "moderate")
  else if normalized_entropy ≥ 0.2 then (40, "low")
  else (20, "very_low")

/-- _calculate_income_expense_ratio. -/
def calculate_income_expense_ratio (txs : List Transaction) : IncomeExpenseMetric :=
  let monthly_data := monthly_income_expense txs
  if monthly_data.isEmpty then { score := 0, ratio := some 0, status := "insufficient_data" }
  else
    let total_income := (monthly_data.map fun kv => kv.2.income).sum
    let total_expenses := (monthly_data.map fun kv => kv.2.expenses).sum
    if total_income = 0 then { score := 0, ratio := some 0, status := "no_income" }
    else
      let ratio := total_expenses / total_income
      let sc := ratio_score ratio
      { score := sc.1
        ratio := some ratio
        status := sc.2
        monthly_income := some (total_income / monthly_data.length)
        monthly_expenses := some (total_expenses / monthly_data.length) }

/-- _calculate_savings_rate (its bucketing loop is byte-identical to the
ratio metric's, hence the shared monthly_income_expense). -/
def calculate_savings_rate (txs : List Transaction) : SavingsRateMetric :=
  let monthly_data := monthly_income_expense txs
  if monthly_data.isEmpty then { score := 0, rate := some 0, status := "insufficient_data" }
  else
    let total_income := (monthly_data.map fun kv => kv.2.income).sum
    let total_expenses := (monthly_data.map fun kv => kv.2.expenses).sum
    if total_income = 0 then { score := 0, rate := some 0, status := "no_income" }
    else
      let savings_rate := (total_income - total_expenses) / total_income
      let sc := savings_score savings_rate
      { score := sc.1
        rate := some savings_rate
        status := sc.2
        monthly_savings := some ((total_income - total_expenses) / monthly_data.length) }

/-- _calculate_spending_consistency. -/
noncomputable def calculate_spending_consistency (txs : List Transaction) :
    SpendingConsistencyMetric :=
  let monthly_expenses := monthly_expenses_dict txs
  if monthly_expenses.length < 3 then
    { score := 50, consistency := some 0, status := "insufficient_data" }
  else
    let amounts := monthly_expenses.map Prod.snd
    let mean_amount := mean_list amounts
    if mean_amount = 0 then { score := 50, consistency := some 0, status := "no_expenses" }
    else
      let cv : ℝ := std_dev amounts / (mean_amount : ℝ)
      let sc := cv_score cv
      { score := sc.1
        consistency := some (1 - min cv 1)
        status := sc.2
        coefficient_of_variation := some cv }

/-- _get_monthly_expenses: average monthly debit total. -/
def get_monthly_expenses (txs : List Transaction) : ℚ :=
  let monthly_expenses := monthly_expenses_dict txs
  if monthly_expenses.isEmpty then 0
  else (monthly_expenses.map Prod.snd).sum / monthly_expenses.length

/-- _calculate_emergency_fund_score: the months-covered value is the fixed
placeholder 3 (no balance data is available to the engine). -/
def calculate_emergency_fund_score (txs : List Transaction) : EmergencyFundMetric :=
  let monthly_expenses := get_monthly_expenses txs
  if monthly_expenses = 0 then
    { score := 50, months_covered := some 0, status := "insufficient_data" }
  else
    let emergency_fund_months : ℚ := 3
    let sc := emergency_fund_ladder emergency_fund_months
    { score := sc.1
      months_covered := some emergency_fund_months
      status := sc.2
      recommended_months := some 6 }

/-- _calculate_debt_management_score: a fixed placeholder. -/
def calculate_debt_management_score (_txs : List Transaction) : DebtManagementMetric :=
  { score := 70, status := "good", note := some "Requires debt account integration" }

/-- Per-category debit transaction counts (the loop of
_calculate_category_diversity). -/
def category_counts_dict (txs : List Transaction) : List (String × ℕ) :=
  txs.foldl
    (fun d t =>
      if t.transaction_type == "debit" then
        dict_upd d (resolved_category t) 0 (fun v => v + 1)
      else d)
    []

/-- _calculate_category_diversity: Shannon entropy of the distribution of
debit transaction counts over resolved categories, normalized by
log2(category count). -/
noncomputable def calculate_category_diversity (txs : List Transaction) :
    CategoryDiversityMetric :=
  let category_counts := category_counts_dict txs
  if category_counts.isEmpty then { score := 0, diversity := some 0, status := "no_expenses" }
  else
    let total_transactions := (category_counts.map Prod.snd).sum
    if total_transactions = 0 then { score := 0, diversity := some 0, status := "no_expenses" }
    else
      let entropy : ℝ :=
        -((category_counts.map fun kv =>
            let p : ℝ := (kv.2 : ℝ) / (total_transactions : ℝ)
            if p > 0 then p * Real.logb 2 p else 0).sum)
      let max_entropy : ℝ := Real.logb 2 (category_counts.length : ℝ)
      let normalized_entropy := if max_entropy = 0 then 0 else entropy / max_entropy
      let sc := diversity_score normalized_entropy
      { score := sc.1
        diversity := some normalized_entropy
        status := sc.2
        categories_count := some category_counts.length }

/-- The fixed metric weights of _calculate_overall_score. -/
def health_weights : List (String × ℚ) :=
  [("income_expense_ratio", 0.25), ("savings_rate", 0.25), ("spending_consistency", 0.15),
   ("emergency_fund_score", 0.20), ("debt_management", 0.10), ("category_diversity", 0.05)]

/-- The weight mass of the metrics present in the input (the source skips
a metric absent from the dict or lacking a score key; presence in the
association list models both at once). -/
def included_weight (metrics : List (String × ℚ)) : ℚ :=
  (health_weights.map fun nw =>
    match dict_get metrics nw.1 with
    | some _ => nw.2
    | none => 0).sum

/-- _calculate_overall_score over the available metric scores: weighted
average renormalized by the included weight, rounded to one decimal;
0 when nothing is included. -/
def calculate_overall_score (metrics : List (String × ℚ)) : ℚ :=
  let total_score :=
    (health_weights.map fun nw =>
      match dict_get metrics nw.1 with
      | some s => s * nw.2
      | none => 0).sum
  let total_weight := included_weight metrics
  if total_weight = 0 then 0 else round1 (total_score / total_weight)

/-- The renormalized weights (weight over included weight) summed over the
included metrics; the quantity claim C6 speaks about. -/
def renormalized_weight_sum (metrics : List (String × ℚ)) : ℚ :=
  (health_weights.map fun nw =>
    match dict_get metrics nw.1 with
    | some _ => nw.2 / included_weight metrics
    | none => 0).sum

/-- _get_health_grade. -/
def get_health_grade (score : ℚ) : String :=
  if score ≥ 90 then "A+"
  else if score ≥ 85 then "A"
  else if score ≥ 80 then "A-"
  else if score ≥ 75 then "B+"
  else if score ≥ 70 then "B"
  else if score ≥ 65 then "B-"
  else if score ≥ 60 then "C+"
  else if score ≥ 55 then "C"
  else if score ≥ 50 then "C-"
  else if score ≥ 40 then "D"
  else "F"

/-- _generate_recommendations: one fixed message per metric whose status
is in its needs-improvement set, in metric order; one positive default
when none triggered. -/
def generate_recommendations (m : HealthMetrics) : List String :=
  let recommendations :=
    (if ["concerning", "critical"].contains m.income_expense_ratio.status then
      ["Consider reducing monthly expenses or increasing income to improve your financial health."]
    else []) ++
    (if ["fair", "negative"].contains m.savings_rate.status then
      ["Aim to save at least 20% of your income. Start with small amounts and gradually increase."]
    else []) ++
    (if ["inconsistent", "highly_inconsistent"].contains m.spending_consistency.status then
      ["Create a monthly budget to help maintain consistent spending patterns."]
    else []) ++
    (if ["inadequate", "critical"].contains m.emergency_fund_score.status then
      ["Build an emergency fund covering 3-6 months of expenses for financial security."]
    else []) ++
    (if ["low", "very_low"].contains m.category_diversity.status then
      ["Diversify your spending categories to better track and manage your finances."]
    else [])
  if recommendations.isEmpty then
    ["Great job! Your financial health is in good shape. Keep maintaining these healthy habits."]
  else recommendations

/-- _get_default_health_score: the fixed result for an empty history. -/
def get_default_health_score : HealthScoreResult :=
  { overall_score := 50
    health_grade := "C"
    metrics :=
      { income_expense_ratio := { score := 50, status := "insufficient_data" }
        savings_rate := { score := 50, status := "insufficient_data" }
        spending_consistency := { score := 50, status := "insufficient_data" }
        emergency_fund_score := { score := 50, status := "insufficient_data" }
        debt_management := { score := 50, status := "insufficient_data" }
        category_diversity := { score := 50, status := "insufficient_data" } }
    recommendations := ["Start adding transactions to get personalized financial health insights."] }

/-- calculate_health_score on the fetched transaction list.  The source
passes the six metric dicts to _calculate_overall_score, which reads
their score keys; the model passes the scores keyed by the same names. -/
noncomputable def calculate_health_score (txs : List Transaction) : HealthScoreResult :=
  if txs.isEmpty then get_default_health_score
  else
    let income_expense_ratio := calculate_income_expense_ratio txs
    let savings_rate := calculate_savings_rate txs
    let spending_consistency := calculate_spending_consistency txs
    let emergency_fund_score := calculate_emergency_fund_score txs
    let debt_management := calculate_debt_management_score txs
    let category_diversity := calculate_category_diversity txs
    let overall_score := calculate_overall_score
      [("income_expense_ratio", income_expense_ratio.score),
       ("savings_rate", savings_rate.score),
       ("spending_consistency", spending_consistency.score),
       ("emergency_fund_score", emergency_fund_score.score),
       ("debt_management", debt_management.score),
       ("category_diversity", category_diversity.score)]
    { overall_score := overall_score
      health_grade := get_health_grade overall_score
      metrics :=
        { income_expense_ratio := income_expense_ratio
          savings_rate := savings_rate
          spending_consistency := spending_consistency
          emergency_fund_score := emergency_fund_score
          debt_management := debt_management
          category_diversity := category_diversity }
      recommendations := generate_recommendations
        { income_expense_ratio := income_expense_ratio
          savings_rate := savings_rate
          spending_consistency := spending_consistency
          emergency_fund_score := emergency_fund_score
          debt_management := debt_management
          category_diversity := category_diversity } }

/-! ## InsightEngine (backend/app/ml/insights.py) -/

/-- schemas/transaction.py SpendingInsight; created_at (a wall-clock
timestamp) is not modelled. -/
structure SpendingInsight where
  insight_type : String
  title : String
  description : String
  category : Option String := none
  confidence_score : ℚ
deriving DecidableEq

/-- The Python exceptions relevant to the insights pipeline. -/
inductive PyErr where
  | typeError
deriving DecidableEq

/-- The comparison `txn.date >= current_month` of _detect_budget_issues,
where current_month = datetime.utcnow().replace(day=1) is a datetime
while txn.date is a date (the ORM Date column yields datetime.date).
CPython refuses mixed date/datetime order comparisons: datetime is a
subclass of date overriding the comparison methods, so the reflected
datetime.__le__(date) runs first and raises
TypeError("can't compare 'datetime' to 'date'") via _cmperror instead
of returning NotImplemented.  The comparison therefore raises for every
transaction reached by the loop; both its operand values are irrelevant. -/
def date_ge_current_month_datetime (_d : PyDate) : Except PyErr Bool :=
  Except.error PyErr.typeError

/-- _detect_budget_issues: fold the current-month income/expense totals
(each step performing the raising comparison above), then classify the
expense ratio.  With a non-empty transaction list the first loop step
raises TypeError; with an empty list the loop body never runs,
monthly_income stays 0 and no insight is produced. -/
def detect_budget_issues (txs : List Transaction) : Except PyErr (List SpendingInsight) := do
  let totals ← txs.foldlM
    (fun (acc : ℚ × ℚ) t => do
      let in_current ← date_ge_current_month_datetime t.date
      if in_current then
        if t.transaction_type == "credit" then pure (acc.1 + py_abs t.amount, acc.2)
        else pure (acc.1, acc.2 + py_abs t.amount)
      else pure acc)
    ((0 : ℚ), (0 : ℚ))
  let monthly_income := totals.1
  let monthly_expenses := totals.2
  if monthly_income > 0 then
    let expense_ratio := monthly_expenses / monthly_income
    if expense_ratio > 0.9 then
      pure [{ insight_type := "alert"
              title := "High Expense Ratio"
              description := "Your expenses are " ++ pct1 expense_ratio ++
                " of your income this month. Consider reducing spending to improve savings."
              confidence_score := 0.85 }]
    else if expense_ratio < 0.5 then
      pure [{ insight_type := "positive"
              title := "Excellent Savings Rate"
              description := "Great job! You\x27re only spending " ++ pct1 expense_ratio ++
                " of your income, leaving plenty for savings and investments."
              confidence_score := 0.80 }]
    else pure []
  else pure []

/-- _analyze_spending_trends: compare the two most recent months' expense
totals; alert above +20%, praise below -20%. -/
def analyze_spending_trends (txs : List Transaction) : List SpendingInsight :=
  if txs.length < 10 then []
  else
    let monthly_data := monthly_income_expense txs
    if monthly_data.length < 2 then []
    else
      match (List.insertionSort (fun a b => date_ble a b = true)
          (monthly_data.map Prod.fst)).reverse with
      | current_month :: previous_month :: _ =>
        let current_expenses :=
          ((dict_get monthly_data current_month).getD { income := 0, expenses := 0 }).expenses
        let previous_expenses :=
          ((dict_get monthly_data previous_month).getD { income := 0, expenses := 0 }).expenses
        if previous_expenses > 0 then
          let change_percentage := ((current_expenses - previous_expenses) / previous_expenses) * 100
          if change_percentage > 20 then
            [{ insight_type := "trend"
               title := "Spending Increase Alert"
               description := "Your spending increased by " ++ fmt1 change_percentage ++
                 "% this month compared to last month. Consider reviewing your budget."
               confidence_score := 0.85 }]
          else if change_percentage < -20 then
            [{ insight_type := "trend"
               title := "Great Spending Control"
               description := "Your spending decreased by " ++ fmt1 (py_abs change_percentage) ++
                 "% this month! Keep up the good work."
               confidence_score := 0.80 }]
          else []
        else []
      | _ => []

/-- The anomaly insight for one day. -/
def anomaly_insight (day : PyDate) (amount mean_amount : ℚ) : SpendingInsight :=
  { insight_type := "anomaly"
    title := "Unusual Spending Day"
    description := "On " ++ month_name day.month ++ " " ++ pad2 day.day ++ ", you spent $" ++
      fmt2 amount ++ ", which is significantly higher than your average daily spending of $" ++
      fmt2 mean_amount ++ "."
    confidence_score := 0.90 }

/-- _detect_spending_anomalies: z-score over per-day debit totals; one
insight per day whose L score exceeds 2; the z-score branch only runs
under the std > 0 guard. -/
noncomputable def detect_spending_anomalies (txs : List Transaction) : List SpendingInsight :=
  if txs.length < 20 then []
  else
    let daily_spending := daily_spending_dict txs
    if daily_spending.isEmpty then []
    else
      let amounts := daily_spending.map Prod.snd
      let mean_amount := mean_list amounts
      let std_amount := std_dev amounts
      if std_amount > 0 then
        daily_spending.foldl
          (fun acc kv =>
            let z_score : ℝ := |((kv.2 : ℚ) : ℝ) - ((mean_amount : ℚ) : ℝ)| / std_amount
            if z_score > 2 then acc ++ [anomaly_insight kv.1 kv.2 mean_amount] else acc)
          []
      else []

/-- _generate_savings_recommendations: a 20%-reduction suggestion for each
of the top 3 spending categories whose total exceeds 100. -/
def generate_savings_recommendations (txs : List Transaction) : List SpendingInsight :=
  let category_spending := category_spending_dict txs
  if category_spending.isEmpty then []
  else
    let sorted_categories :=
      List.insertionSort (fun a b : String × ℚ => b.2 ≤ a.2) category_spending
    (sorted_categories.take 3).foldl
      (fun acc kv =>
        if kv.2 > 100 then
          acc ++ [{ insight_type := "recommendation"
                    title := "Save on " ++ py_title kv.1
                    description := "You spent $" ++ fmt2 kv.2 ++ " on " ++ py_lower kv.1 ++
                      " this month. Consider reducing this by 20% to save $" ++
                      fmt2 (kv.2 * 0.2) ++ " monthly."
                    category := some kv.1
                    confidence_score := 0.75 }]
        else acc)
      []

/-- _analyze_category_patterns: per category, bucket debit totals by
weekday name; with at least 3 weekdays represented and the maximal day
exceeding twice the minimal day, emit a pattern insight. -/
def analyze_category_patterns (txs : List Transaction) : List SpendingInsight :=
  let category_day_patterns : List (String × List (String × ℚ)) :=
    txs.foldl
      (fun d t =>
        if t.transaction_type == "debit" then
          dict_upd d (resolved_category t) []
            (fun inner => dict_upd inner (weekday_name t.date) 0 (fun v => v + py_abs t.amount))
        else d)
      []
  category_day_patterns.foldl
    (fun acc cp =>
      if cp.2.length ≥ 3 then
        let max_day := arg_max_by_val cp.2
        let min_day := arg_min_by_val cp.2
        if max_day.2 > min_day.2 * 2 then
          acc ++ [{ insight_type := "pattern"
                    title := py_title cp.1 ++ " Spending Pattern"
                    description := "You tend to spend more on " ++ py_lower cp.1 ++ " on " ++
                      max_day.1 ++ "s ($" ++ fmt2 max_day.2 ++ ") compared to " ++ min_day.1 ++
                      "s ($" ++ fmt2 min_day.2 ++ ")."
                    category := some cp.1
                    confidence_score := 0.70 }]
        else acc
      else acc)
    []

/-- _get_default_insights: the fixed welcome insight. -/
def get_default_insights : List SpendingInsight :=
  [{ insight_type := "info"
     title := "Welcome to Finance Tracker!"
     description := "Start connecting your bank accounts and adding transactions to receive personalized AI insights."
     confidence_score := 1.0 }]

/-- The body of generate_insights' try block after the empty-history
return: run the five detectors in order, concatenate, sort by descending
confidence (stable, like list.sort(reverse=True)), keep the top 10.
Only the budget detector can raise (see date_ge_current_month_datetime);
the other four are total, so the Except layer sits on the budget step. -/
noncomputable def generate_insights_core (txs : List Transaction) :
    Except PyErr (List SpendingInsight) := do
  let insights :=
    analyze_spending_trends txs ++ detect_spending_anomalies txs ++
    generate_savings_recommendations txs ++ analyze_category_patterns txs
  let budget_insights ← detect_budget_issues txs
  let all_insights := insights ++ budget_insights
  pure ((List.insertionSort
      (fun a b : SpendingInsight => b.confidence_score ≤ a.confidence_score) all_insights).take 10)

/-- generate_insights on the fetched transaction list: the default
welcome insight on empty history, and on any exception escaping the
detectors (the top-level except Exception of the source). -/
noncomputable def generate_insights (txs : List Transaction) : List SpendingInsight :=
  if txs.isEmpty then get_default_insights
  else
    match generate_insights_core txs with
    | Except.ok result => result
    | Except.error _ => get_default_insights

/-! ## Public entry points over the repository fetch -/

/-- generate_forecast including the top-level try/except: a repository
failure degrades to the default forecast. -/
noncomputable def generate_forecast_service (fetched : Except PyErr (List Transaction))
    (days_ahead : ℕ) : List ForecastData :=
  match fetched with
  | Except.ok txs => generate_forecast txs days_ahead
  | Except.error _ => get_default_forecast days_ahead

/-- calculate_health_score including the top-level try/except. -/
noncomputable def calculate_health_score_service (fetched : Except PyErr (List Transaction)) :
    HealthScoreResult :=
  match fetched with
  | Except.ok txs => calculate_health_score txs
  | Except.error _ => get_default_health_score

/-- generate_insights including the top-level try/except. -/
noncomputable def generate_insights_service (fetched : Except PyErr (List Transaction)) :
    List SpendingInsight :=
  match fetched with
  | Except.ok txs => generate_insights txs
  | Except.error _ => get_default_insights

/-! ## Concrete scenario data -/

/-- A transaction literal for the concrete scenarios. -/
def mk_tx (d : PyDate) (amount : ℚ) (ty cat : String) : Transaction :=
  { amount := amount, name := "txn", date := d, custom_category := some cat,
    transaction_type := ty }

/-- Twelve months of 2024, each with one 5000 credit and one 4000 debit. -/
def year_txs : List Transaction :=
  (List.range 12).foldr
    (fun m acc =>
      mk_tx { year := 2024, month := m + 1, day := 5 } 5000 "credit" "Salary" ::
      mk_tx { year := 2024, month := m + 1, day := 6 } 4000 "debit" "Rent" :: acc)
    []

/-- Five debit Coffee transactions over three months with monthly totals
100, 110, 120. -/
def coffee_txs : List Transaction :=
  [mk_tx { year := 2024, month := 1, day := 10 } 100 "debit" "Coffee",
   mk_tx { year := 2024, month := 2, day := 10 } 50 "debit" "Coffee",
   mk_tx { year := 2024, month := 2, day := 11 } 60 "debit" "Coffee",
   mk_tx { year := 2024, month := 3, day := 10 } 40 "debit" "Coffee",
   mk_tx { year := 2024, month := 3, day := 11 } 80 "debit" "Coffee"]

/-- Twenty debit transactions of 50 on twenty distinct days. -/
def anomaly_txs : List Transaction :=
  (List.range 20).map fun i =>
    mk_tx { year := 2024, month := 1, day := i + 1 } 50 "debit" "Food"

/-- A single old debit transaction under 100 in a non-current month. -/
def single_old_debit : Transaction :=
  mk_tx { year := 2023, month := 5, day := 10 } 50 "debit" "Misc"

/-! ## Helper lemmas -/

/-- Every run of generate_insights returns the default welcome insight:
an empty history takes the explicit default branch, and any non-empty
history reaches the date/datetime comparison of _detect_budget_issues,
whose TypeError is caught by the top-level handler. -/
theorem insights_always_default (txs : List Transaction) :
    generate_insights txs = get_default_insights := by
  cases txs with
  | nil => rfl
  | cons t ts => rfl

/-- categorize only ever produces one of its seven labels. -/
theorem categorize_output_cases (s : String) :
    categorize s = "Food & Drink" ∨ categorize s = "Transport" ∨ categorize s = "Shopping" ∨
    categorize s = "Groceries" ∨ categorize s = "Housing" ∨ categorize s = "Income" ∨
    categorize s = "Uncategorized" := by
  simp only [categorize]
  repeat' split
  all_goals simp

/-- No output label of categorize contains any keyword of the rule table,
so a second application always lands on the fallback label. -/
theorem categorize_categorize (s : String) :
    categorize (categorize s) = "Uncategorized" := by
  rcases categorize_output_cases s with h | h | h | h | h | h | h <;> rw [h] <;> decide

/-! ## Claim theorems -/

/-- C1: for the empty transaction set, generate_forecast returns exactly
the one "General Expenses" placeholder (amount 500, bounds 300/700,
trend "stable"), calculate_health_score returns overall_score 50 with
grade "C", and generate_insights returns exactly one insight, of type
"info". -/
theorem claim_C1_empty_defaults (days_ahead : ℕ) :
    generate_forecast [] days_ahead = get_default_forecast days_ahead
    ∧ get_default_forecast days_ahead =
        [{ category := "General Expenses"
           forecast_amount := 500
           confidence_interval_lower := 300
           confidence_interval_upper := 700
           forecast_date_offset := days_ahead
           trend := "stable" }]
    ∧ (calculate_health_score []).overall_score = 50
    ∧ (calculate_health_score []).health_grade = "C"
    ∧ generate_insights [] = get_default_insights
    ∧ (generate_insights []).map (fun i => i.insight_type) = ["info"] :=
  ⟨rfl, rfl, rfl, rfl, rfl, rfl⟩

/-- C2: for every input transaction set the insight list has length at
most 10 and is sorted by non-increasing confidence_score.  (In fact the
engine always produces the single default insight, because every
non-empty history makes the budget detector raise; see
date_ge_current_month_datetime.) -/
theorem claim_C2_insights_capped_and_sorted (txs : List Transaction) :
    (generate_insights txs).length ≤ 10
    ∧ List.Sorted (fun a b : SpendingInsight => b.confidence_score ≤ a.confidence_score)
        (generate_insights txs) := by
  rw [insights_always_default txs]
  exact ⟨by simp [get_default_insights], by simp [get_default_insights]⟩

/-- C4: no error escapes an engine entry point: a failed repository fetch
makes each engine return its defined default result, and an exception
escaping the insight detectors (the only fallible inner computation) is
converted to the default insight list by the top-level handler. -/
theorem claim_C4_error_handling (days_ahead : ℕ) (e : PyErr) (txs : List Transaction) :
    generate_forecast_service (Except.error e) days_ahead = get_default_forecast days_ahead
    ∧ calculate_health_score_service (Except.error e) = get_default_health_score
    ∧ generate_insights_service (Except.error e) = get_default_insights
    ∧ (∀ err : PyErr, generate_insights_core txs = Except.error err →
        generate_insights txs = get_default_insights) := by
  refine ⟨rfl, rfl, rfl, ?_⟩
  intro err herr
  cases txs with
  | nil => rfl
  | cons t ts => simp [generate_insights, herr]

/-- C4 witness: the error fallbacks evaluated at a failed fetch and at the
concrete single-transaction history whose detector run raises. -/
theorem claim_C4_witness :
    generate_forecast_service (Except.error PyErr.typeError) 30 = get_default_forecast 30
    ∧ generate_insights [single_old_debit] = get_default_insights :=
  ⟨(claim_C4_error_handling 30 PyErr.typeError [single_old_debit]).1,
   (claim_C4_error_handling 30 PyErr.typeError [single_old_debit]).2.2.2 PyErr.typeError rfl⟩

/-- C5 counterexample: categorize is not idempotent.  "coffee" resolves to
"Food & Drink", but resolving "Food & Drink" again yields
"Uncategorized", because no output label contains a rule keyword. -/
theorem claim_C5_counterexample :
    ¬ (categorize (categorize "coffee") = categorize "coffee") := by decide

/-- C5 amended: resolving an already-resolved category yields
"Uncategorized" (not the same string), so only from the second
application on is categorize idempotent, with "Uncategorized" the only
fixed output label. -/
theorem claim_C5_amended (s : String) :
    categorize (categorize s) = "Uncategorized"
    ∧ categorize (categorize (categorize s)) = categorize (categorize s) := by
  refine ⟨categorize_categorize s, ?_⟩
  rw [categorize_categorize s]
  decide

/-- C10: evaluating the code at the failing input.  For the single old
debit transaction under 100, the claim expects the empty insight list;
the code instead returns the default welcome/info insight, because
_detect_budget_issues raises TypeError (date >= datetime comparison) on
any non-empty history and the top-level handler converts that to the
default. -/
theorem claim_C10_budget_bug_eval :
    detect_budget_issues [single_old_debit] = Except.error PyErr.typeError
    ∧ generate_insights [single_old_debit] = get_default_insights
    ∧ generate_insights [single_old_debit] ≠ []
    ∧ (generate_insights [single_old_debit]).map (fun i => i.insight_type) = ["info"] := by
  refine ⟨rfl, rfl, ?_, rfl⟩
  have h : generate_insights [single_old_debit] = get_default_insights := rfl
  rw [h]
  simp [get_default_insights]

/-- The regression input has exactly one amount per month key. -/
theorem amounts_of_length (d : List (PyDate × ℚ)) : (amounts_of d).length = d.length := by
  simp [amounts_of, sorted_months]

/-- C8: the per-category path emits nothing exactly when the category has
fewer than 5 debit transactions or fewer than 2 distinct months of
data, while the "Overall Spending" path emits nothing exactly when
there are fewer than 2 distinct months of debit data; it has no
minimum transaction count. -/
theorem claim_C8_emission_guards (txs : List Transaction) (category : String)
    (days_ahead : ℕ) :
    (forecast_category txs category days_ahead = none ↔
      (category_transactions txs category).length < 5 ∨
      (category_monthly_dict txs category).length < 2)
    ∧ (forecast_overall_spending txs days_ahead = none ↔
      (monthly_expenses_dict txs).length < 2) := by
  constructor
  · simp only [forecast_category]
    split_ifs with h1 h2 h3
    · simp [h1]
    · simp [h1, h2]
    · simp [h1, h2]
    · have := amounts_of_length (category_monthly_dict txs category)
      omega
  · simp only [forecast_overall_spending]
    split_ifs with h1 h2
    · simp [h1]
    · simp [h1]
    · have := amounts_of_length (monthly_expenses_dict txs)
      omega

/-- Mean of a constant non-empty list. -/
theorem mean_of_const (l : List ℚ) (c : ℚ) (h : ∀ x ∈ l, x = c) (hne : l ≠ []) :
    mean_list l = c := by
  have hs : l.sum = l.length • c := List.sum_eq_card_nsmul l c h
  have hl : ((l.length : ℚ)) ≠ 0 := by
    have hp : 0 < l.length := List.length_pos.mpr hne
    exact_mod_cast Nat.pos_iff_ne_zero.mp hp
  rw [mean_list, hs, nsmul_eq_mul]
  exact mul_div_cancel_left₀ c hl

/-- Variance of a constant list vanishes. -/
theorem var_of_const (l : List ℚ) (c : ℚ) (h : ∀ x ∈ l, x = c) : var_list l = 0 := by
  cases l with
  | nil => simp [var_list]
  | cons a t =>
    have hm : mean_list (a :: t) = c := mean_of_const _ c h (by simp)
    have hz : ∀ y ∈ (a :: t).map (fun x => (x - mean_list (a :: t)) ^ 2), y = 0 := by
      intro y hy
      rcases List.mem_map.mp hy with ⟨x, hx, rfl⟩
      rw [hm, h x hx]
      ring
    rw [var_list, List.sum_eq_zero hz, zero_div]

/-- Standard deviation of a constant list vanishes. -/
theorem std_dev_of_const (l : List ℚ) (c : ℚ) (h : ∀ x ∈ l, x = c) : std_dev l = 0 := by
  rw [std_dev, var_of_const l c h]
  simp

/-- C9: with at least 20 transactions and all per-day debit totals equal,
the anomaly detector emits nothing: the standard deviation is 0, the
positivity guard fails, and the z-score branch is never reached (the
computation is total by construction). -/
theorem claim_C9_anomaly_zero_std (txs : List Transaction)
    (_hlen : 20 ≤ txs.length)
    (hconst : List.Pairwise (fun a b => a.2 = b.2) (daily_spending_dict txs)) :
    detect_spending_anomalies txs = [] := by
  simp only [detect_spending_anomalies]
  split_ifs with h1 h2 h3
  · rfl
  · rfl
  · exfalso
    cases hd : daily_spending_dict txs with
    | nil => exact h2 (by rw [hd]; rfl)
    | cons p rest =>
      have hall : ∀ x ∈ (daily_spending_dict txs).map Prod.snd, x = p.2 := by
        rw [hd]
        intro x hx
        rcases List.mem_map.mp hx with ⟨q, hq, rfl⟩
        rcases List.mem_cons.mp hq with rfl | hq2
        · rfl
        · exact ((List.pairwise_cons.mp (hd ▸ hconst)).1 q hq2).symm
      have hstd : std_dev ((daily_spending_dict txs).map Prod.snd) = 0 :=
        std_dev_of_const _ p.2 hall
      rw [hstd] at h3
      exact lt_irrefl 0 h3
  · rfl

/-- C9 witness: twenty 50-unit debit days. -/
theorem claim_C9_witness :
    20 ≤ anomaly_txs.length
    ∧ List.Pairwise (fun a b : PyDate × ℚ => a.2 = b.2) (daily_spending_dict anomaly_txs)
    ∧ detect_spending_anomalies anomaly_txs = [] := by
  have h1 : 20 ≤ anomaly_txs.length := by decide
  have h2 : List.Pairwise (fun a b : PyDate × ℚ => a.2 = b.2)
      (daily_spending_dict anomaly_txs) := by
    simp [anomaly_txs, daily_spending_dict, mk_tx, dict_upd, py_abs, List.range_succ,
      List.pairwise_cons]
  exact ⟨h1, h2, claim_C9_anomaly_zero_std anomaly_txs h1 h2⟩

/-- C7: a "Coffee" category with at least 5 debit transactions whose
month-ordered totals are [100, 110, 120] yields regression slope 10,
next month amount 130, trend "increasing", and forecast_amount 130 at
days_ahead = 30. -/
theorem claim_C7_coffee_forecast (txs : List Transaction)
    (h5 : 5 ≤ (category_transactions txs "Coffee").length)
    (hm : category_monthly_amounts txs "Coffee" = [100, 110, 120]) :
    slope_fit (category_monthly_amounts txs "Coffee") = 10
    ∧ next_month_amount (category_monthly_amounts txs "Coffee") = 130
    ∧ ∃ fd : ForecastData,
        forecast_category txs "Coffee" 30 = some fd
        ∧ fd.category = "Coffee"
        ∧ fd.trend = "increasing"
        ∧ fd.forecast_amount = 130 := by
  have hslope : slope_fit [100, 110, 120] = (10 : ℚ) := by
    norm_num [slope_fit, List.range_succ]
  have hnext : next_month_amount [100, 110, 120] = (130 : ℚ) := by
    rw [next_month_amount, hslope]
    norm_num [last_amount]
  have hmu : amounts_of (category_monthly_dict txs "Coffee") = [100, 110, 120] := hm
  have hdlen : (category_monthly_dict txs "Coffee").length = 3 := by
    have h := amounts_of_length (category_monthly_dict txs "Coffee")
    rw [hmu] at h
    simpa using h.symm
  refine ⟨by rw [hm]; exact hslope, by rw [hm]; exact hnext, ?_⟩
  simp only [forecast_category]
  split_ifs with h1 h2 h3
  · exact absurd h1 (by omega)
  · exact absurd h2 (by omega)
  · refine ⟨_, rfl, rfl, ?_, ?_⟩
    · rw [hmu, hslope]
      norm_num [trend_of_slope]
    · rw [hmu, hnext]
      norm_num
  · rw [hmu] at h3
    simp at h3

/-- C7 witness: the concrete five-transaction Coffee history. -/
theorem claim_C7_witness :
    5 ≤ (category_transactions coffee_txs "Coffee").length
    ∧ category_monthly_amounts coffee_txs "Coffee" = [100, 110, 120]
    ∧ slope_fit (category_monthly_amounts coffee_txs "Coffee") = 10
    ∧ ∃ fd : ForecastData,
        forecast_category coffee_txs "Coffee" 30 = some fd
        ∧ fd.trend = "increasing"
        ∧ fd.forecast_amount = 130 := by
  have h5 : 5 ≤ (category_transactions coffee_txs "Coffee").length := by decide
  have hm : category_monthly_amounts coffee_txs "Coffee" = [100, 110, 120] := by
    simp [category_monthly_amounts, category_monthly_dict, category_transactions,
      coffee_txs, mk_tx, resolved_category, dict_upd, month_start, amounts_of, sorted_months,
      dict_get, List.insertionSort, List.orderedInsert, date_ble, py_abs]
    norm_num
  obtain ⟨hs, _, fd, hfd, _, ht, hf⟩ := claim_C7_coffee_forecast coffee_txs h5 hm
  exact ⟨h5, hm, hs, fd, hfd, ht, hf⟩

/-- The two income/expense metrics on any history whose 12-month window
totals 60000 of income and 48000 of expenses: the ratio 0.8 falls in
the (0.7, 0.9] band, scoring 60 with status "fair"; the savings rate
0.2 reaches the 0.2 threshold, scoring 85 with status "very_good". -/
theorem health_scenario_metrics (txs : List Transaction)
    (hne : monthly_income_expense txs ≠ [])
    (hinc : ((monthly_income_expense txs).map fun kv => kv.2.income).sum = 60000)
    (hexp : ((monthly_income_expense txs).map fun kv => kv.2.expenses).sum = 48000) :
    (calculate_income_expense_ratio txs).score = 60
    ∧ (calculate_income_expense_ratio txs).ratio = some (4 / 5)
    ∧ (calculate_income_expense_ratio txs).status = "fair"
    ∧ (calculate_savings_rate txs).score = 85
    ∧ (calculate_savings_rate txs).rate = some (1 / 5)
    ∧ (calculate_savings_rate txs).status = "very_good" := by
  have hie : ¬ (monthly_income_expense txs).isEmpty = true := by
    simpa [List.isEmpty_iff] using hne
  have hr : ((48000 : ℚ)) / 60000 = 4 / 5 := by norm_num
  have hs : ((60000 : ℚ) - 48000) / 60000 = 1 / 5 := by norm_num
  simp only [calculate_income_expense_ratio, calculate_savings_rate, hinc, hexp, hie,
    if_false, Bool.false_eq_true, ite_false, hr, hs]
  norm_num [ratio_score, savings_score]

/-- The concrete 12-month scenario satisfies the hypotheses of
health_scenario_metrics. -/
theorem year_txs_scenario :
    monthly_income_expense year_txs ≠ []
    ∧ ((monthly_income_expense year_txs).map fun kv => kv.2.income).sum = 60000
    ∧ ((monthly_income_expense year_txs).map fun kv => kv.2.expenses).sum = 48000 := by
  refine ⟨?_, ?_, ?_⟩
  · simp [year_txs, monthly_income_expense, mk_tx, dict_upd, month_start, py_abs,
      List.range_succ]
  · simp [year_txs, monthly_income_expense, mk_tx, dict_upd, month_start, py_abs,
      List.range_succ]
    norm_num
  · simp [year_txs, monthly_income_expense, mk_tx, dict_upd, month_start, py_abs,
      List.range_succ]
    norm_num

/-- On any non-empty history the health result's metric fields are the
individual metric computations. -/
theorem health_metrics_proj (txs : List Transaction) (hne : txs ≠ []) :
    (calculate_health_score txs).metrics.income_expense_ratio
      = calculate_income_expense_ratio txs
    ∧ (calculate_health_score txs).metrics.savings_rate = calculate_savings_rate txs := by
  cases txs with
  | nil => exact absurd rfl hne
  | cons t ts => exact ⟨rfl, rfl⟩

/-- C3 counterexample: on the concrete 12-month history with monthly
income 5000 and expenses 4000, the income_expense_ratio sub-metric of
calculate_health_score has ratio 0.8 but score 60 and status "fair",
not score 80 and status "good" as the claim states. -/
theorem claim_C3_counterexample :
    (calculate_health_score year_txs).metrics.income_expense_ratio.ratio = some (4 / 5)
    ∧ (calculate_health_score year_txs).metrics.income_expense_ratio.score = 60
    ∧ (calculate_health_score year_txs).metrics.income_expense_ratio.status = "fair"
    ∧ ¬ ((calculate_health_score year_txs).metrics.income_expense_ratio.score = 80
        ∧ (calculate_health_score year_txs).metrics.income_expense_ratio.status = "good") := by
  obtain ⟨hne, hinc, hexp⟩ := year_txs_scenario
  have hproj := (health_metrics_proj year_txs (by decide)).1
  obtain ⟨h60, hr, hst, _, _, _⟩ := health_scenario_metrics year_txs hne hinc hexp
  rw [hproj]
  refine ⟨hr, h60, hst, ?_⟩
  rintro ⟨h80, -⟩
  rw [h60] at h80
  norm_num at h80

/-- C3 amended: for a history whose 365-day window carries 12 months of
credit 5000 and debit 4000 (totals 60000/48000), calculate_health_score
reports income_expense_ratio with ratio 0.8 but score 60 and status
"fair" (the 0.8 ratio falls in the 0.7-0.9 band), and savings_rate with
rate 0.2, score 85 and status "very_good" as the claim stated. -/
theorem claim_C3_amended (txs : List Transaction)
    (hne : monthly_income_expense txs ≠ [])
    (hinc : ((monthly_income_expense txs).map fun kv => kv.2.income).sum = 60000)
    (hexp : ((monthly_income_expense txs).map fun kv => kv.2.expenses).sum = 48000) :
    (calculate_health_score txs).metrics.income_expense_ratio.ratio = some (4 / 5)
    ∧ (calculate_health_score txs).metrics.income_expense_ratio.score = 60
    ∧ (calculate_health_score txs).metrics.income_expense_ratio.status = "fair"
    ∧ (calculate_health_score txs).metrics.savings_rate.rate = some (1 / 5)
    ∧ (calculate_health_score txs).metrics.savings_rate.score = 85
    ∧ (calculate_health_score txs).metrics.savings_rate.status = "very_good" := by
  have htne : txs ≠ [] := by
    intro h
    rw [h] at hne
    exact hne rfl
  obtain ⟨hp1, hp2⟩ := health_metrics_proj txs htne
  obtain ⟨h60, hr, hst, h85, hrt, hsv⟩ := health_scenario_metrics txs hne hinc hexp
  rw [hp1, hp2]
  exact ⟨hr, h60, hst, hrt, h85, hsv⟩

/-- C3 witness: the hypotheses discharged on the concrete 12-month
history. -/
theorem claim_C3_witness :
    monthly_income_expense year_txs ≠ []
    ∧ (calculate_health_score year_txs).metrics.income_expense_ratio.score = 60
    ∧ (calculate_health_score year_txs).metrics.savings_rate.score = 85 := by
  obtain ⟨hne, hinc, hexp⟩ := year_txs_scenario
  obtain ⟨_, h60, _, _, h85, _⟩ := claim_C3_amended year_txs hne hinc hexp
  exact ⟨hne, h60, h85⟩

/-- Half-even rounding never goes below an integer lower bound. -/
theorem round_half_even_ge (q : ℚ) (lo : ℤ) (h : (lo : ℚ) ≤ q) :
    lo ≤ round_half_even q := by
  have hf : lo ≤ ⌊q⌋ := Int.le_floor.mpr h
  simp only [round_half_even]
  split_ifs <;> omega

/-- Half-even rounding never exceeds an integer upper bound. -/
theorem round_half_even_le (q : ℚ) (hi : ℤ) (h : q ≤ (hi : ℚ)) :
    round_half_even q ≤ hi := by
  have hf : ⌊q⌋ ≤ hi := by
    have h2 := Int.floor_mono h
    rwa [Int.floor_intCast] at h2
  simp only [round_half_even]
  split_ifs with h1 h2 h3
  · omega
  · have hlt : (⌊q⌋ : ℚ) < (hi : ℚ) := by
      have hfl : (⌊q⌋ : ℚ) ≤ q := Int.floor_le q
      linarith
    have : ⌊q⌋ < hi := by exact_mod_cast hlt
    omega
  · omega
  · have hr : q - (⌊q⌋ : ℚ) = 1 / 2 := le_antisymm (not_lt.mp h2) (not_lt.mp h1)
    have hlt : (⌊q⌋ : ℚ) < (hi : ℚ) := by linarith
    have : ⌊q⌋ < hi := by exact_mod_cast hlt
    omega

/-- round(x, 1) stays inside [0, 100]. -/
theorem round1_bounds (q : ℚ) (h0 : 0 ≤ q) (h100 : q ≤ 100) :
    0 ≤ round1 q ∧ round1 q ≤ 100 := by
  have hge : (0 : ℤ) ≤ round_half_even (10 * q) :=
    round_half_even_ge (10 * q) 0 (by push_cast; linarith)
  have hle : round_half_even (10 * q) ≤ 1000 :=
    round_half_even_le (10 * q) 1000 (by push_cast; linarith)
  constructor
  · exact div_nonneg (by exact_mod_cast hge) (by norm_num)
  · rw [round1, div_le_iff₀ (by norm_num : (0 : ℚ) < 10)]
    have : ((round_half_even (10 * q) : ℤ) : ℚ) ≤ 1000 := by exact_mod_cast hle
    linarith

/-- A value found by dict_get is the value of some stored pair. -/
theorem dict_get_some_mem {κ α : Type} [DecidableEq κ] (d : List (κ × α)) (k : κ) (v : α)
    (h : dict_get d k = some v) : ∃ k0, (k0, v) ∈ d := by
  induction d with
  | nil => simp [dict_get] at h
  | cons p rest ih =>
    obtain ⟨k0, v0⟩ := p
    simp only [dict_get] at h
    split_ifs at h with hk
    · obtain rfl : v0 = v := Option.some.inj h
      exact ⟨k0, List.mem_cons_self _ _⟩
    · obtain ⟨k1, hmem⟩ := ih h
      exact ⟨k1, List.mem_cons_of_mem _ hmem⟩

/-- The weighted score sum is non-negative and at most 100 times the
included weight, for any weight table with non-negative weights and any
metric scores inside [0, 100]. -/
theorem weighted_sum_bounds (metrics : List (String × ℚ))
    (hs : ∀ p ∈ metrics, 0 ≤ p.2 ∧ p.2 ≤ 100) :
    ∀ ws : List (String × ℚ), (∀ p ∈ ws, 0 ≤ p.2) →
      0 ≤ (ws.map fun nw => match dict_get metrics nw.1 with
            | some s => s * nw.2
            | none => 0).sum
      ∧ (ws.map fun nw => match dict_get metrics nw.1 with
            | some s => s * nw.2
            | none => 0).sum
          ≤ 100 * (ws.map fun nw => match dict_get metrics nw.1 with
            | some _ => nw.2
            | none => 0).sum
      ∧ 0 ≤ (ws.map fun nw => match dict_get metrics nw.1 with
            | some _ => nw.2
            | none => 0).sum := by
  intro ws hw
  induction ws with
  | nil => simp
  | cons a t ih =>
    have hws := ih fun p hp => hw p (List.mem_cons_of_mem a hp)
    cases hdg : dict_get metrics a.1 with
    | none =>
      simp only [List.map_cons, List.sum_cons, hdg, zero_add]
      exact hws
    | some s =>
      have ha := hw a (List.mem_cons_self a t)
      obtain ⟨k0, hmem⟩ := dict_get_some_mem metrics a.1 s hdg
      obtain ⟨hs0, hs100⟩ := hs (k0, s) hmem
      have hs0s : 0 ≤ s := hs0
      have hs100s : s ≤ 100 := hs100
      simp only [List.map_cons, List.sum_cons, hdg]
      have hm := mul_nonneg hs0s ha
      have h1 : s * a.2 ≤ 100 * a.2 := mul_le_mul_of_nonneg_right hs100s ha
      refine ⟨add_nonneg hm hws.1, ?_, add_nonneg ha hws.2.2⟩
      rw [mul_add]
      exact add_le_add h1 hws.2.1

/-- _calculate_overall_score stays inside [0, 100] whenever all provided
metric scores do. -/
theorem overall_score_bounds_general (metrics : List (String × ℚ))
    (hs : ∀ p ∈ metrics, 0 ≤ p.2 ∧ p.2 ≤ 100) :
    0 ≤ calculate_overall_score metrics ∧ calculate_overall_score metrics ≤ 100 := by
  have hwpos : ∀ p ∈ health_weights, 0 ≤ p.2 := by
    intro p hp
    simp only [health_weights, List.mem_cons, List.not_mem_nil, or_false] at hp
    rcases hp with rfl | rfl | rfl | rfl | rfl | rfl <;> norm_num
  obtain ⟨hts0, htsle, htw0⟩ := weighted_sum_bounds metrics hs health_weights hwpos
  have hiw : included_weight metrics
      = (health_weights.map fun nw => match dict_get metrics nw.1 with
          | some _ => nw.2
          | none => 0).sum := rfl
  simp only [calculate_overall_score]
  split_ifs with h0
  · norm_num
  · have h0s : (health_weights.map fun nw => match dict_get metrics nw.1 with
        | some _ => nw.2
        | none => 0).sum ≠ 0 := by
      rw [← hiw]
      exact h0
    have htwpos : 0 < included_weight metrics := by
      rw [hiw]
      exact lt_of_le_of_ne htw0 (Ne.symm h0s)
    have hq0 : 0 ≤ (health_weights.map fun nw => match dict_get metrics nw.1 with
        | some s => s * nw.2
        | none => 0).sum / included_weight metrics :=
      div_nonneg hts0 (le_of_lt htwpos)
    have hq100 : (health_weights.map fun nw => match dict_get metrics nw.1 with
        | some s => s * nw.2
        | none => 0).sum / included_weight metrics ≤ 100 := by
      rw [div_le_iff₀ htwpos, hiw]
      linarith
    exact round1_bounds _ hq0 hq100

/-- The ratio ladder produces scores in [0, 100]. -/
theorem ratio_score_bounds (r : ℚ) : 0 ≤ (ratio_score r).1 ∧ (ratio_score r).1 ≤ 100 := by
  simp only [ratio_score]
  split_ifs <;> norm_num

/-- The savings ladder produces scores in [0, 100]. -/
theorem savings_score_bounds (r : ℚ) : 0 ≤ (savings_score r).1 ∧ (savings_score r).1 ≤ 100 := by
  simp only [savings_score]
  split_ifs <;> norm_num

/-- The consistency ladder produces scores in [0, 100]. -/
theorem cv_score_bounds (cv : ℝ) : 0 ≤ (cv_score cv).1 ∧ (cv_score cv).1 ≤ 100 := by
  simp only [cv_score]
  split_ifs <;> norm_num

/-- The emergency-fund ladder produces scores in [0, 100]. -/
theorem emergency_fund_ladder_bounds (m : ℚ) :
    0 ≤ (emergency_fund_ladder m).1 ∧ (emergency_fund_ladder m).1 ≤ 100 := by
  simp only [emergency_fund_ladder]
  split_ifs <;> norm_num

/-- The diversity ladder produces scores in [0, 100]. -/
theorem diversity_score_bounds (e : ℝ) :
    0 ≤ (diversity_score e).1 ∧ (diversity_score e).1 ≤ 100 := by
  simp only [diversity_score]
  split_ifs <;> norm_num

/-- Each of the six metric computations scores within [0, 100]. -/
theorem metric_scores_bounds (txs : List Transaction) :
    (0 ≤ (calculate_income_expense_ratio txs).score
      ∧ (calculate_income_expense_ratio txs).score ≤ 100)
    ∧ (0 ≤ (calculate_savings_rate txs).score ∧ (calculate_savings_rate txs).score ≤ 100)
    ∧ (0 ≤ (calculate_spending_consistency txs).score
      ∧ (calculate_spending_consistency txs).score ≤ 100)
    ∧ (0 ≤ (calculate_emergency_fund_score txs).score
      ∧ (calculate_emergency_fund_score txs).score ≤ 100)
    ∧ (0 ≤ (calculate_debt_management_score txs).score
      ∧ (calculate_debt_management_score txs).score ≤ 100)
    ∧ (0 ≤ (calculate_category_diversity txs).score
      ∧ (calculate_category_diversity txs).score ≤ 100) := by
  refine ⟨?_, ?_, ?_, ?_, ?_, ?_⟩
  · simp only [calculate_income_expense_ratio]
    split_ifs <;> first | exact ratio_score_bounds _ | norm_num
  · simp only [calculate_savings_rate]
    split_ifs <;> first | exact savings_score_bounds _ | norm_num
  · simp only [calculate_spending_consistency]
    split_ifs <;> first | exact cv_score_bounds _ | norm_num
  · simp only [calculate_emergency_fund_score]
    split_ifs <;> first | exact emergency_fund_ladder_bounds _ | norm_num
  · simp only [calculate_debt_management_score]
    norm_num
  · simp only [calculate_category_diversity]
    split_ifs <;> first | exact diversity_score_bounds _ | norm_num

/-- The overall score of every health result lies in [0, 100]. -/
theorem health_score_bounds (txs : List Transaction) :
    0 ≤ (calculate_health_score txs).overall_score
    ∧ (calculate_health_score txs).overall_score ≤ 100 := by
  cases txs with
  | nil =>
    constructor <;> norm_num [calculate_health_score, get_default_health_score]
  | cons t ts =>
    obtain ⟨h1, h2, h3, h4, h5, h6⟩ := metric_scores_bounds (t :: ts)
    have hproj : (calculate_health_score (t :: ts)).overall_score
        = calculate_overall_score
          [("income_expense_ratio", (calculate_income_expense_ratio (t :: ts)).score),
           ("savings_rate", (calculate_savings_rate (t :: ts)).score),
           ("spending_consistency", (calculate_spending_consistency (t :: ts)).score),
           ("emergency_fund_score", (calculate_emergency_fund_score (t :: ts)).score),
           ("debt_management", (calculate_debt_management_score (t :: ts)).score),
           ("category_diversity", (calculate_category_diversity (t :: ts)).score)] := rfl
    rw [hproj]
    apply overall_score_bounds_general
    intro p hp
    simp only [List.mem_cons, List.not_mem_nil, or_false] at hp
    rcases hp with rfl | rfl | rfl | rfl | rfl | rfl
    · exact h1
    · exact h2
    · exact h3
    · exact h4
    · exact h5
    · exact h6

/-- The renormalized weights of the included metrics always sum to 1 when
anything is included. -/
theorem renorm_sum_eq_one (metrics : List (String × ℚ)) (h : included_weight metrics ≠ 0) :
    renormalized_weight_sum metrics = 1 := by
  have key : ∀ ws : List (String × ℚ),
      (ws.map fun nw => match dict_get metrics nw.1 with
        | some _ => nw.2 / included_weight metrics
        | none => 0).sum
      = (ws.map fun nw => match dict_get metrics nw.1 with
        | some _ => nw.2
        | none => 0).sum / included_weight metrics := by
    intro ws
    induction ws with
    | nil => simp
    | cons a t ih =>
      cases hdg : dict_get metrics a.1 <;>
        simp [hdg, ih, add_div]
  unfold renormalized_weight_sum
  rw [key]
  exact div_self h

/-- C6: for every input, calculate_health_score's overall_score lies in
[0, 100], and for every metric subset the weights of the included
metrics, renormalized by the included weight, sum to 1. -/
theorem claim_C6_overall_bounds_and_weights (txs : List Transaction)
    (metrics : List (String × ℚ)) :
    (0 ≤ (calculate_health_score txs).overall_score
      ∧ (calculate_health_score txs).overall_score ≤ 100)
    ∧ (included_weight metrics ≠ 0 → renormalized_weight_sum metrics = 1) :=
  ⟨health_score_bounds txs, fun h => renorm_sum_eq_one metrics h⟩

/-- C6 witness: the empty history and a one-metric subset, whose included
weight 0.25 is non-zero and renormalizes to 1. -/
theorem claim_C6_witness :
    included_weight [("savings_rate", (80 : ℚ))] ≠ 0
    ∧ renormalized_weight_sum [("savings_rate", (80 : ℚ))] = 1
    ∧ 0 ≤ (calculate_health_score []).overall_score := by
  have h : included_weight [("savings_rate", (80 : ℚ))] ≠ 0 := by
    simp [included_weight, health_weights, dict_get]
    norm_num
  exact ⟨h, (claim_C6_overall_bounds_and_weights [] [("savings_rate", (80 : ℚ))]).2 h,
    (claim_C6_overall_bounds_and_weights [] [("savings_rate", (80 : ℚ))]).1.1⟩
